import Mathlib

/-!
Shallow embedding of `workout_api/atleta/controller.py`: the five request
handlers (`post`, `query`, `get`, `patch`, `delete`) of the Atleta resource,
modelled as pure functions over an explicit database state.  The database
session is embedded as state passing: a handler returns its HTTP-level result
together with the database visible after commit/rollback.  UUIDs and
timestamps are modelled as natural numbers supplied by the caller (the code
draws them from `uuid4()` / `datetime.utcnow()`).
-/

namespace WorkoutApi

/-- Modelled from the spec: `CategoriaModel` (the models file is not in the
source tree); a pre-existing reference entity with an internal numeric
primary key `pk_id` and a name, looked up by name. -/
structure CategoriaRow where
  pk_id : Nat
  nome : String
deriving Repr, DecidableEq

/-- Modelled from the spec: `CentroTreinamentoModel` (the models file is not
in the source tree); a pre-existing reference entity with an internal numeric
primary key `pk_id` and a name, looked up by name. -/
structure CentroTreinamentoRow where
  pk_id : Nat
  nome : String
deriving Repr, DecidableEq

/-- Modelled from the spec: the `AtletaModel` row (the models file is not in
the source tree).  Attributes per the spec's data model: generated UUID `id`
(distinct from the internal numeric key, which we do not need to observe),
name, CPF, weight, height, sex, creation timestamp, and the two resolved
foreign keys.  Weight and height carry no arithmetic in the handlers, so they
are represented by integers. -/
structure AtletaRow where
  id : Nat
  nome : String
  cpf : String
  peso : Int
  altura : Int
  sexo : String
  created_at : Nat
  categoria_id : Nat
  centro_treinamento_id : Nat
deriving Repr, DecidableEq

/-- The database state a handler sees: athlete rows plus the two read-only
reference tables. -/
structure DB where
  atletas : List AtletaRow
  categorias : List CategoriaRow
  centros : List CentroTreinamentoRow
deriving Repr, DecidableEq

/-- Modelled from the spec: the `AtletaIn` transfer schema (the schemas file
is not in the source tree).  Input per the spec: name, CPF, weight, height,
sex, category name, training-center name. -/
structure AtletaIn where
  nome : String
  cpf : String
  peso : Int
  altura : Int
  sexo : String
  categoria : String
  centro_treinamento : String
deriving Repr, DecidableEq

/-- Modelled from the spec: the `AtletaOut` transfer schema — the full output
representation: the input fields plus the generated id and timestamp
(`AtletaOut(id=uuid4(), created_at=datetime.utcnow(), **atleta_in.model_dump())`). -/
structure AtletaOut where
  id : Nat
  created_at : Nat
  nome : String
  cpf : String
  peso : Int
  altura : Int
  sexo : String
  categoria : String
  centro_treinamento : String
deriving Repr, DecidableEq

/-- Result of the create handler: 201 with the output representation, or an
`HTTPException` with a status code and detail message. -/
inductive PostResult where
  | created (out : AtletaOut)
  | error (statusCode : Nat) (detail : String)
deriving Repr, DecidableEq

/-- The HTTP status code of a create response (`status_code=201` on success). -/
def PostResult.status : PostResult → Nat
  | .created _ => 201
  | .error s _ => s

/-- Outcome of the `db_session.add` + `commit` persistence step inside the
`try` block: success, an `IntegrityError`, or any other exception `e`
(carrying its message). -/
inductive PersistOutcome where
  | ok
  | integrityError
  | otherError (msg : String)
deriving Repr, DecidableEq

/-- The create handler (`post`), parametrised by the outcome of the
persistence step.  Mirrors the source line by line: look up the category by
name (400 if absent), look up the training center by name (400 if absent),
build `atleta_out` from a fresh id and timestamp plus all input fields, build
the row with the resolved foreign keys, then add/commit; `IntegrityError`
rolls back and raises 409 naming the input CPF, any other exception rolls
back and raises 500 with the cause. -/
def postWith (db : DB) (atleta_in : AtletaIn) (newId now : Nat)
    (outcome : PersistOutcome) : PostResult × DB :=
  match db.categorias.find? (fun c => c.nome == atleta_in.categoria) with
  | none =>
      (.error 400 ("A categoria " ++ atleta_in.categoria ++ " não foi encontrada."), db)
  | some categoria =>
    match db.centros.find? (fun c => c.nome == atleta_in.centro_treinamento) with
    | none =>
        (.error 400 ("O centro de treinamento " ++ atleta_in.centro_treinamento
          ++ " não foi encontrado."), db)
    | some centro =>
      let atleta_out : AtletaOut :=
        { id := newId, created_at := now, nome := atleta_in.nome,
          cpf := atleta_in.cpf, peso := atleta_in.peso,
          altura := atleta_in.altura, sexo := atleta_in.sexo,
          categoria := atleta_in.categoria,
          centro_treinamento := atleta_in.centro_treinamento }
      let atleta_model : AtletaRow :=
        { id := newId, nome := atleta_in.nome, cpf := atleta_in.cpf,
          peso := atleta_in.peso, altura := atleta_in.altura,
          sexo := atleta_in.sexo, created_at := now,
          categoria_id := categoria.pk_id,
          centro_treinamento_id := centro.pk_id }
      match outcome with
      | .ok =>
          (.created atleta_out, { db with atletas := db.atletas ++ [atleta_model] })
      | .integrityError =>
          (.error 409 ("Já existe um atleta cadastrado com o cpf: " ++ atleta_in.cpf), db)
      | .otherError msg =>
          (.error 500 ("Ocorreu um erro ao inserir os dados no banco: " ++ msg), db)

/-- The persistence outcome of a healthy database: the commit raises
`IntegrityError` exactly when the insert violates the CPF-uniqueness
constraint (the spec's sole uniqueness invariant on athlete rows), and
succeeds otherwise. -/
def realOutcome (db : DB) (cpf : String) : PersistOutcome :=
  if db.atletas.any (fun a => a.cpf == cpf) then .integrityError else .ok

/-- The create handler against a healthy database enforcing CPF uniqueness. -/
def post (db : DB) (atleta_in : AtletaIn) (newId now : Nat) : PostResult × DB :=
  postWith db atleta_in newId now (realOutcome db atleta_in.cpf)

/-- Modelled from the spec: the `AtletaResumoOut` summary schema (the schemas
file is not in the source tree) — a reduced field set built from a row by
`AtletaResumoOut.model_validate(atleta)`; we keep the name and CPF so the
effect of the list filters stays observable. -/
structure AtletaResumoOut where
  nome : String
  cpf : String
deriving Repr, DecidableEq

/-- Mapping a row to its summary representation. -/
def toResumo (a : AtletaRow) : AtletaResumoOut :=
  { nome := a.nome, cpf := a.cpf }

/-- Python truthiness of an optional query string: `if nome:` is taken only
when the parameter is present and non-empty. -/
def truthy : Option String → Bool
  | none => false
  | some s => !(s == "")

/-- SQL `ilike "%pat%")` as used on the name column: case-insensitive
substring containment. -/
def ilikeContains (hay pat : String) : Bool :=
  decide (pat.toLower.data <:+: hay.toLower.data)

/-- The filtering part of the list handler (`query`): starting from
`select(AtletaModel)`, apply `ilike` on the name when `nome` is truthy, then
an exact `filter_by(cpf=cpf)` when `cpf` is truthy. -/
def filterAtletas (db : DB) (nome cpf : Option String) : List AtletaRow :=
  let rows := db.atletas
  let rows := if truthy nome then
      rows.filter (fun a => ilikeContains a.nome (nome.getD "")) else rows
  if truthy cpf then rows.filter (fun a => a.cpf == cpf.getD "") else rows

/-- The limit/offset parameters consumed by `fastapi_pagination.paginate`. -/
structure PageParams where
  limit : Nat
  offset : Nat
deriving Repr, DecidableEq

/-- A `LimitOffsetPage` envelope: the windowed items plus total-count
metadata. -/
structure Page (α : Type) where
  items : List α
  total : Nat
  limit : Nat
  offset : Nat
deriving Repr, DecidableEq

/-- `paginate`: windows an in-memory sequence by limit/offset and records the
total count of the full sequence. -/
def paginate (xs : List α) (p : PageParams) : Page α :=
  { items := (xs.drop p.offset).take p.limit, total := xs.length,
    limit := p.limit, offset := p.offset }

/-- The list handler (`query`): fetch the full filtered set, map every row to
its summary representation, then hand the whole list to `paginate`. -/
def query (db : DB) (nome cpf : Option String) (p : PageParams) :
    Page AtletaResumoOut :=
  paginate ((filterAtletas db nome cpf).map toResumo) p

/-- Result of the get-by-id handler: 200 with the row, or 404. -/
inductive GetResult where
  | found (a : AtletaRow)
  | notFound (detail : String)
deriving Repr, DecidableEq

/-- The HTTP status code of a get response. -/
def GetResult.status : GetResult → Nat
  | .found _ => 200
  | .notFound _ => 404

/-- The get handler (`get`): `select(AtletaModel).filter_by(id=id)` and take
the first match; 404 when there is none. -/
def get (db : DB) (id : Nat) : GetResult :=
  match db.atletas.find? (fun a => a.id == id) with
  | none => .notFound ("Atleta não encontrado no id: " ++ toString id)
  | some atleta => .found atleta

/-- Modelled from the spec: the `AtletaUpdate` partial-input schema (the
schemas file is not in the source tree).  Every mutable athlete attribute is
optional; `model_dump(exclude_unset=True)` keeps exactly the fields that were
explicitly supplied, modelled here as the `some` fields. -/
structure AtletaUpdate where
  nome : Option String := none
  cpf : Option String := none
  peso : Option Int := none
  altura : Option Int := none
  sexo : Option String := none
deriving Repr, DecidableEq

/-- The `setattr` loop of the patch handler: each explicitly supplied field
overwrites the row's field; absent fields are untouched. -/
def applyUpdate (a : AtletaRow) (u : AtletaUpdate) : AtletaRow :=
  { a with
    nome := u.nome.getD a.nome
    cpf := u.cpf.getD a.cpf
    peso := u.peso.getD a.peso
    altura := u.altura.getD a.altura
    sexo := u.sexo.getD a.sexo }

/-- Replace the first element satisfying `p` by its image under `f`; the
session mutates the one ORM object returned by `.first()`. -/
def updateFirst (p : α → Bool) (f : α → α) : List α → List α
  | [] => []
  | a :: as => if p a then f a :: as else a :: updateFirst p f as

/-- Result of the patch handler: 200 with the refreshed row, or 404. -/
inductive PatchResult where
  | ok (a : AtletaRow)
  | notFound (detail : String)
deriving Repr, DecidableEq

/-- The HTTP status code of a patch response. -/
def PatchResult.status : PatchResult → Nat
  | .ok _ => 200
  | .notFound _ => 404

/-- The patch handler (`patch`): find the first row with the id (404 when
none), apply the explicitly supplied fields, commit, refresh, and return the
refreshed row. -/
def patch (db : DB) (id : Nat) (atleta_up : AtletaUpdate) : PatchResult × DB :=
  match db.atletas.find? (fun a => a.id == id) with
  | none => (.notFound ("Atleta não encontrado no id: " ++ toString id), db)
  | some atleta =>
      let atleta' := applyUpdate atleta atleta_up
      (.ok atleta',
        { db with atletas := (updateFirst (fun a => a.id == id)
            (fun a => applyUpdate a atleta_up) db.atletas) })

/-- Result of the delete handler: 204 with no content, or 404. -/
inductive DeleteResult where
  | noContent
  | notFound (detail : String)
deriving Repr, DecidableEq

/-- The HTTP status code of a delete response. -/
def DeleteResult.status : DeleteResult → Nat
  | .noContent => 204
  | .notFound _ => 404

/-- The delete handler (`delete`): find the first row with the id (404 when
none), remove that row, commit, and return no content. -/
def delete (db : DB) (id : Nat) : DeleteResult × DB :=
  match db.atletas.find? (fun a => a.id == id) with
  | none => (.notFound ("Atleta não encontrado no id: " ++ toString id), db)
  | some _ =>
      (.noContent, { db with atletas := db.atletas.eraseP (fun a => a.id == id) })

/-! ### Concrete fixtures used by witnesses and counterexamples -/

/-- A fixture category. -/
def exCat : CategoriaRow := { pk_id := 1, nome := "Scale" }

/-- A fixture training center. -/
def exCT : CentroTreinamentoRow := { pk_id := 2, nome := "CT King" }

/-- A fixture create input referring to the fixture category and center. -/
def exInp : AtletaIn :=
  { nome := "Ana Silva", cpf := "123", peso := 60, altura := 170,
    sexo := "F", categoria := "Scale", centro_treinamento := "CT King" }

/-- A fixture athlete row. -/
def exAtleta : AtletaRow :=
  { id := 10, nome := "Ana Silva", cpf := "123", peso := 60, altura := 170,
    sexo := "F", created_at := 100, categoria_id := 1, centro_treinamento_id := 2 }

/-- A fixture database with no athletes and both reference entities present. -/
def exDB0 : DB := { atletas := [], categorias := [exCat], centros := [exCT] }

/-- A fixture database holding one athlete. -/
def exDB1 : DB := { atletas := [exAtleta], categorias := [exCat], centros := [exCT] }

/-- A fixture database with no categories (so the category lookup fails). -/
def exDBnoCat : DB := { atletas := [], categorias := [], centros := [exCT] }

/-- A fixture database with no training centers (so the center lookup fails). -/
def exDBnoCT : DB := { atletas := [], categorias := [exCat], centros := [] }

/-! ### Helper lemmas -/

/-- In a list whose keys under `f` are pairwise distinct, at most one element
matches any given key. -/
lemma length_filter_le_one_of_nodup_map {α β : Type} [DecidableEq β] (f : α → β)
    (b : β) : ∀ l : List α, (l.map f).Nodup →
    (l.filter (fun a => f a == b)).length ≤ 1 := by
  intro l
  induction l with
  | nil => simp
  | cons x xs ih =>
    intro h
    rw [List.map_cons, List.nodup_cons] at h
    by_cases hfx : f x = b
    · have hnil : xs.filter (fun a => f a == b) = [] := by
        rw [List.filter_eq_nil_iff]
        intro y hy
        simp only [beq_iff_eq]
        intro hfy
        exact h.1 (hfy.trans hfx.symm ▸ List.mem_map_of_mem f hy)
      simp [List.filter_cons, hfx, hnil]
    · simpa [List.filter_cons, hfx] using ih h.2

/-- After erasing the first match from a list with at most one match, no
match remains. -/
lemma find?_eraseP_eq_none {α : Type} (p : α → Bool) :
    ∀ l : List α, l.countP p ≤ 1 → (l.eraseP p).find? p = none := by
  intro l
  induction l with
  | nil => intro; simp
  | cons x xs ih =>
    intro h
    by_cases hpx : p x
    · rw [List.eraseP_cons_of_pos hpx]
      rw [List.countP_cons, if_pos hpx] at h
      have hz : xs.countP p = 0 := by omega
      rw [List.find?_eq_none]
      intro y hy
      have := List.countP_eq_zero.mp hz y hy
      simpa using this
    · rw [List.eraseP_cons_of_neg hpx, List.find?_cons_of_neg _ hpx]
      rw [List.countP_cons, if_neg hpx] at h
      exact ih (by omega)

/-- The image under `f` of the first match found by `find?` belongs to the
list updated by `updateFirst`. -/
lemma mem_updateFirst_of_find? {α : Type} (p : α → Bool) (f : α → α) :
    ∀ l : List α, ∀ a, l.find? p = some a → f a ∈ updateFirst p f l := by
  intro l
  induction l with
  | nil => intro a h; simp [List.find?] at h
  | cons x xs ih =>
    intro a h
    by_cases hpx : p x
    · rw [List.find?_cons_of_pos _ hpx, Option.some_inj] at h
      subst h
      simp [updateFirst, hpx]
    · rw [List.find?_cons_of_neg _ hpx] at h
      simp only [updateFirst, hpx, if_neg, reduceIte]
      exact List.mem_cons_of_mem x (ih a h)

/-- The row the create handler persists for a given input, fresh id/timestamp
and resolved foreign keys. -/
def mkRow (atleta_in : AtletaIn) (newId now : Nat)
    (cat : CategoriaRow) (ct : CentroTreinamentoRow) : AtletaRow :=
  { id := newId, nome := atleta_in.nome, cpf := atleta_in.cpf,
    peso := atleta_in.peso, altura := atleta_in.altura,
    sexo := atleta_in.sexo, created_at := now,
    categoria_id := cat.pk_id, centro_treinamento_id := ct.pk_id }

/-- The output representation the create handler returns for a given input
and fresh id/timestamp. -/
def mkOut (atleta_in : AtletaIn) (newId now : Nat) : AtletaOut :=
  { id := newId, created_at := now, nome := atleta_in.nome,
    cpf := atleta_in.cpf, peso := atleta_in.peso,
    altura := atleta_in.altura, sexo := atleta_in.sexo,
    categoria := atleta_in.categoria,
    centro_treinamento := atleta_in.centro_treinamento }

/-- When both references resolve and the CPF is fresh, create commits the new
row and returns it. -/
lemma post_ok_eq (db : DB) (atleta_in : AtletaIn) (newId now : Nat)
    (cat : CategoriaRow) (ct : CentroTreinamentoRow)
    (hcat : db.categorias.find? (fun c => c.nome == atleta_in.categoria) = some cat)
    (hct : db.centros.find? (fun c => c.nome == atleta_in.centro_treinamento) = some ct)
    (hfresh : ∀ a ∈ db.atletas, a.cpf ≠ atleta_in.cpf) :
    post db atleta_in newId now =
      (.created (mkOut atleta_in newId now),
       { db with atletas := db.atletas ++ [mkRow atleta_in newId now cat ct] }) := by
  have hout : realOutcome db atleta_in.cpf = .ok := by
    unfold realOutcome
    rw [if_neg]
    simp only [List.any_eq_true, beq_iff_eq, not_exists, not_and]
    intro a hmem
    exact hfresh a hmem
  simp [post, postWith, hcat, hct, hout, mkOut, mkRow]

/-- When both references resolve and a row with the input's CPF already
exists, the commit raises `IntegrityError`: create rolls back and returns the
409 conflict naming the CPF. -/
lemma post_dup_eq (db : DB) (atleta_in : AtletaIn) (newId now : Nat)
    (cat : CategoriaRow) (ct : CentroTreinamentoRow)
    (hcat : db.categorias.find? (fun c => c.nome == atleta_in.categoria) = some cat)
    (hct : db.centros.find? (fun c => c.nome == atleta_in.centro_treinamento) = some ct)
    (hdup : ∃ a ∈ db.atletas, a.cpf = atleta_in.cpf) :
    post db atleta_in newId now =
      (.error 409 ("Já existe um atleta cadastrado com o cpf: " ++ atleta_in.cpf), db) := by
  have hout : realOutcome db atleta_in.cpf = .integrityError := by
    unfold realOutcome
    rw [if_pos]
    simp only [List.any_eq_true, beq_iff_eq]
    exact hdup
  simp [post, postWith, hcat, hct, hout]

/-! ### Claim theorems -/

/-- C2: a create request whose category name or training-center name does not
resolve fails with HTTP 400 identifying the missing reference, and the
database state is unchanged (no athlete row is persisted). -/
theorem post_missing_reference (db : DB) (atleta_in : AtletaIn) (newId now : Nat) :
    (db.categorias.find? (fun c => c.nome == atleta_in.categoria) = none →
      post db atleta_in newId now =
        (.error 400 ("A categoria " ++ atleta_in.categoria ++ " não foi encontrada."), db)) ∧
    (∀ cat, db.categorias.find? (fun c => c.nome == atleta_in.categoria) = some cat →
      db.centros.find? (fun c => c.nome == atleta_in.centro_treinamento) = none →
      post db atleta_in newId now =
        (.error 400 ("O centro de treinamento " ++ atleta_in.centro_treinamento
          ++ " não foi encontrado."), db)) := by
  constructor
  · intro hcat
    simp [post, postWith, hcat]
  · intro cat hcat hct
    simp [post, postWith, hcat, hct]

/-- Witness for C2 at concrete databases missing each reference. -/
theorem post_missing_reference_witness :
    post exDBnoCat exInp 5 7 =
      (.error 400 "A categoria Scale não foi encontrada.", exDBnoCat) ∧
    post exDBnoCT exInp 5 7 =
      (.error 400 "O centro de treinamento CT King não foi encontrado.", exDBnoCT) :=
  ⟨(post_missing_reference exDBnoCat exInp 5 7).1 rfl,
   (post_missing_reference exDBnoCT exInp 5 7).2 exCat rfl rfl⟩

/-- C3: when both referenced entities exist and persistence succeeds, create
returns 201 with the full output representation (fresh id, current timestamp,
all input fields carried through) and appends a row carrying the resolved
foreign keys, committed into the new database state. -/
theorem post_success (db : DB) (atleta_in : AtletaIn) (newId now : Nat)
    (cat : CategoriaRow) (ct : CentroTreinamentoRow)
    (hcat : db.categorias.find? (fun c => c.nome == atleta_in.categoria) = some cat)
    (hct : db.centros.find? (fun c => c.nome == atleta_in.centro_treinamento) = some ct)
    (hfresh : ∀ a ∈ db.atletas, a.cpf ≠ atleta_in.cpf) :
    post db atleta_in newId now =
      (.created
        { id := newId, created_at := now, nome := atleta_in.nome,
          cpf := atleta_in.cpf, peso := atleta_in.peso,
          altura := atleta_in.altura, sexo := atleta_in.sexo,
          categoria := atleta_in.categoria,
          centro_treinamento := atleta_in.centro_treinamento },
       { db with atletas := db.atletas ++
          [{ id := newId, nome := atleta_in.nome, cpf := atleta_in.cpf,
             peso := atleta_in.peso, altura := atleta_in.altura,
             sexo := atleta_in.sexo, created_at := now,
             categoria_id := cat.pk_id,
             centro_treinamento_id := ct.pk_id }] }) ∧
    (post db atleta_in newId now).1.status = 201 := by
  have h := post_ok_eq db atleta_in newId now cat ct hcat hct hfresh
  refine ⟨h.trans (by simp [mkOut, mkRow]), ?_⟩
  rw [h]
  rfl

/-- Witness for C3 at a concrete empty database. -/
theorem post_success_witness :
    post exDB0 exInp 10 100 =
      (.created
        { id := 10, created_at := 100, nome := "Ana Silva", cpf := "123",
          peso := 60, altura := 170, sexo := "F", categoria := "Scale",
          centro_treinamento := "CT King" },
       { exDB0 with atletas := [exAtleta] }) ∧
    (post exDB0 exInp 10 100).1.status = 201 := by
  have h := post_success exDB0 exInp 10 100 exCat exCT rfl rfl (by simp [exDB0])
  exact ⟨h.1.trans (by simp [exDB0, exAtleta, exInp, exCat, exCT]), h.2⟩

/-- C1: a create whose persistence step violates CPF uniqueness rolls back
and fails with HTTP 409 naming the offending CPF (first conjunct, for every
database and request reaching the persistence step); and after a first create
with a fresh CPF succeeds (201) and a second create with the same CPF fails
(409, database unchanged), exactly one athlete row with that CPF exists. -/
theorem post_duplicate_cpf_conflict
    (db : DB) (inp1 inp2 : AtletaIn) (i1 t1 i2 t2 : Nat)
    (cat1 : CategoriaRow) (ct1 : CentroTreinamentoRow)
    (cat2 : CategoriaRow) (ct2 : CentroTreinamentoRow)
    (hcat1 : db.categorias.find? (fun c => c.nome == inp1.categoria) = some cat1)
    (hct1 : db.centros.find? (fun c => c.nome == inp1.centro_treinamento) = some ct1)
    (hcat2 : db.categorias.find? (fun c => c.nome == inp2.categoria) = some cat2)
    (hct2 : db.centros.find? (fun c => c.nome == inp2.centro_treinamento) = some ct2)
    (hfresh : ∀ a ∈ db.atletas, a.cpf ≠ inp1.cpf)
    (hsame : inp2.cpf = inp1.cpf) :
    (∀ (db' : DB) (inp : AtletaIn) (i t : Nat) (c : CategoriaRow)
        (x : CentroTreinamentoRow),
      db'.categorias.find? (fun r => r.nome == inp.categoria) = some c →
      db'.centros.find? (fun r => r.nome == inp.centro_treinamento) = some x →
      (∃ a ∈ db'.atletas, a.cpf = inp.cpf) →
      post db' inp i t =
        (.error 409 ("Já existe um atleta cadastrado com o cpf: " ++ inp.cpf), db')) ∧
    (post db inp1 i1 t1).1.status = 201 ∧
    (post (post db inp1 i1 t1).2 inp2 i2 t2).1 =
      .error 409 ("Já existe um atleta cadastrado com o cpf: " ++ inp2.cpf) ∧
    (post (post db inp1 i1 t1).2 inp2 i2 t2).1.status = 409 ∧
    (post (post db inp1 i1 t1).2 inp2 i2 t2).2 = (post db inp1 i1 t1).2 ∧
    ((post (post db inp1 i1 t1).2 inp2 i2 t2).2.atletas.filter
        (fun a => a.cpf == inp1.cpf)).length = 1 := by
  have h1 := post_ok_eq db inp1 i1 t1 cat1 ct1 hcat1 hct1 hfresh
  have hrowcpf : (mkRow inp1 i1 t1 cat1 ct1).cpf = inp1.cpf := rfl
  have hdb1 : (post db inp1 i1 t1).2 =
      { db with atletas := db.atletas ++ [mkRow inp1 i1 t1 cat1 ct1] } := by rw [h1]
  have hdup : ∃ a ∈ (post db inp1 i1 t1).2.atletas, a.cpf = inp2.cpf := by
    refine ⟨mkRow inp1 i1 t1 cat1 ct1, ?_, by rw [hrowcpf, hsame]⟩
    rw [hdb1]
    simp
  have h2 := post_dup_eq (post db inp1 i1 t1).2 inp2 i2 t2 cat2 ct2
    (by rw [hdb1]; exact hcat2) (by rw [hdb1]; exact hct2) hdup
  refine ⟨?_, ?_, ?_, ?_, ?_, ?_⟩
  · intro db' inp i t c x hc hx hd
    exact post_dup_eq db' inp i t c x hc hx hd
  · rw [h1]; rfl
  · rw [h2]
  · rw [h2]; rfl
  · rw [h2]
  · rw [h2, hdb1]
    rw [List.filter_append]
    have hnil : db.atletas.filter (fun a => a.cpf == inp1.cpf) = [] := by
      rw [List.filter_eq_nil_iff]
      intro a ha
      simpa using hfresh a ha
    rw [hnil]
    simp [hrowcpf]

/-- Witness for C1: two concrete creates with the same CPF against the
fixture database. -/
theorem post_duplicate_cpf_conflict_witness :
    (post exDB0 exInp 10 100).1.status = 201 ∧
    (post (post exDB0 exInp 10 100).2 { exInp with nome := "Outra" } 11 101).1 =
      .error 409 "Já existe um atleta cadastrado com o cpf: 123" ∧
    ((post (post exDB0 exInp 10 100).2 { exInp with nome := "Outra" } 11 101).2.atletas.filter
        (fun a => a.cpf == "123")).length = 1 := by
  have h := post_duplicate_cpf_conflict exDB0 exInp { exInp with nome := "Outra" }
    10 100 11 101 exCat exCT exCat exCT rfl rfl rfl rfl (by simp [exDB0]) rfl
  exact ⟨h.2.1, h.2.2.1, h.2.2.2.2.2⟩

/-- C8: when both references resolve and the persistence step fails with any
failure other than an integrity-constraint violation, the transaction is
rolled back (the returned database is the pre-request state, so no partial
writes remain visible) and the operation fails with HTTP 500 naming the
underlying cause. -/
theorem post_other_failure_500 (db : DB) (atleta_in : AtletaIn) (newId now : Nat)
    (cat : CategoriaRow) (ct : CentroTreinamentoRow) (msg : String)
    (hcat : db.categorias.find? (fun c => c.nome == atleta_in.categoria) = some cat)
    (hct : db.centros.find? (fun c => c.nome == atleta_in.centro_treinamento) = some ct) :
    postWith db atleta_in newId now (.otherError msg) =
      (.error 500 ("Ocorreu um erro ao inserir os dados no banco: " ++ msg), db) ∧
    (postWith db atleta_in newId now (.otherError msg)).1.status = 500 := by
  constructor
  · simp [postWith, hcat, hct]
  · simp [postWith, hcat, hct, PostResult.status]

/-- Witness for C8 at a concrete database and failure message. -/
theorem post_other_failure_500_witness :
    postWith exDB0 exInp 10 100 (.otherError "boom") =
      (.error 500 "Ocorreu um erro ao inserir os dados no banco: boom", exDB0) ∧
    (postWith exDB0 exInp 10 100 (.otherError "boom")).1.status = 500 :=
  post_other_failure_500 exDB0 exInp 10 100 exCat exCT "boom" rfl rfl

/-- C10: the create handler's single `IntegrityError` branch reports every
integrity-constraint violation — whatever constraint actually failed — as a
duplicate-CPF conflict: HTTP 409 with a message naming the request's CPF, the
transaction rolled back. -/
theorem integrity_error_always_blames_cpf (db : DB) (atleta_in : AtletaIn)
    (newId now : Nat) (cat : CategoriaRow) (ct : CentroTreinamentoRow)
    (hcat : db.categorias.find? (fun c => c.nome == atleta_in.categoria) = some cat)
    (hct : db.centros.find? (fun c => c.nome == atleta_in.centro_treinamento) = some ct) :
    postWith db atleta_in newId now .integrityError =
      (.error 409 ("Já existe um atleta cadastrado com o cpf: " ++ atleta_in.cpf), db) ∧
    (postWith db atleta_in newId now .integrityError).1.status = 409 := by
  constructor
  · simp [postWith, hcat, hct]
  · simp [postWith, hcat, hct, PostResult.status]

/-- Witness for C10 at a concrete database. -/
theorem integrity_error_always_blames_cpf_witness :
    postWith exDB0 exInp 10 100 .integrityError =
      (.error 409 "Já existe um atleta cadastrado com o cpf: 123", exDB0) ∧
    (postWith exDB0 exInp 10 100 .integrityError).1.status = 409 :=
  integrity_error_always_blames_cpf exDB0 exInp 10 100 exCat exCT rfl rfl

/-- C4: updating an existing athlete changes exactly the fields explicitly
present in the partial input: every absent field keeps its prior value (none
is overwritten with a default or null), every present field takes the
supplied value, the identity/timestamp/foreign keys are untouched, the change
is committed into the returned database, and the handler returns the
refreshed row as persisted.  In particular an update carrying only
`peso := 80` changes the weight and leaves name, CPF and category unchanged. -/
theorem patch_partial_update (db : DB) (i : Nat) (u : AtletaUpdate) (a : AtletaRow)
    (hfind : db.atletas.find? (fun r => r.id == i) = some a) :
    (patch db i u).1 = .ok (applyUpdate a u) ∧
    (patch db i u).1.status = 200 ∧
    (patch db i u).2 = { db with atletas :=
      (updateFirst (fun r => r.id == i) (fun r => applyUpdate r u) db.atletas) } ∧
    applyUpdate a u ∈ (patch db i u).2.atletas ∧
    (u.nome = none → (applyUpdate a u).nome = a.nome) ∧
    (u.cpf = none → (applyUpdate a u).cpf = a.cpf) ∧
    (u.peso = none → (applyUpdate a u).peso = a.peso) ∧
    (u.altura = none → (applyUpdate a u).altura = a.altura) ∧
    (u.sexo = none → (applyUpdate a u).sexo = a.sexo) ∧
    (∀ v, u.nome = some v → (applyUpdate a u).nome = v) ∧
    (∀ v, u.cpf = some v → (applyUpdate a u).cpf = v) ∧
    (∀ v, u.peso = some v → (applyUpdate a u).peso = v) ∧
    (∀ v, u.altura = some v → (applyUpdate a u).altura = v) ∧
    (∀ v, u.sexo = some v → (applyUpdate a u).sexo = v) ∧
    (applyUpdate a u).id = a.id ∧
    (applyUpdate a u).created_at = a.created_at ∧
    (applyUpdate a u).categoria_id = a.categoria_id ∧
    (applyUpdate a u).centro_treinamento_id = a.centro_treinamento_id ∧
    ((applyUpdate a { peso := some 80 }).peso = 80 ∧
      (applyUpdate a { peso := some 80 }).nome = a.nome ∧
      (applyUpdate a { peso := some 80 }).cpf = a.cpf ∧
      (applyUpdate a { peso := some 80 }).categoria_id = a.categoria_id) := by
  have hmem : applyUpdate a u ∈
      updateFirst (fun r => r.id == i) (fun r => applyUpdate r u) db.atletas :=
    mem_updateFirst_of_find? (fun r => r.id == i) (fun r => applyUpdate r u)
      db.atletas a hfind
  refine ⟨?_, ?_, ?_, ?_, ?_, ?_, ?_, ?_, ?_, ?_, ?_, ?_, ?_, ?_, ?_, ?_, ?_, ?_, ?_⟩
  · simp [patch, hfind]
  · simp [patch, hfind, PatchResult.status]
  · simp [patch, hfind]
  · simpa [patch, hfind] using hmem
  · intro h; simp [applyUpdate, h]
  · intro h; simp [applyUpdate, h]
  · intro h; simp [applyUpdate, h]
  · intro h; simp [applyUpdate, h]
  · intro h; simp [applyUpdate, h]
  · intro v h; simp [applyUpdate, h]
  · intro v h; simp [applyUpdate, h]
  · intro v h; simp [applyUpdate, h]
  · intro v h; simp [applyUpdate, h]
  · intro v h; simp [applyUpdate, h]
  · rfl
  · rfl
  · rfl
  · rfl
  · exact ⟨rfl, rfl, rfl, rfl⟩

/-- Witness for C4: a weight-only update of the fixture athlete. -/
theorem patch_partial_update_witness :
    (patch exDB1 10 { peso := some 80 }).1 = .ok { exAtleta with peso := 80 } ∧
    ({ exAtleta with peso := 80 } : AtletaRow).nome = exAtleta.nome ∧
    ({ exAtleta with peso := 80 } : AtletaRow).cpf = exAtleta.cpf ∧
    ({ exAtleta with peso := 80 } : AtletaRow).categoria_id = exAtleta.categoria_id := by
  have h := patch_partial_update exDB1 10 { peso := some 80 } exAtleta rfl
  refine ⟨h.1.trans ?_, by decide, by decide, by decide⟩
  simp [applyUpdate, exAtleta]

/-- C6: for an identifier matching no athlete row, get, patch and delete all
fail with HTTP 404 and leave the database unchanged. -/
theorem not_found_404 (db : DB) (i : Nat) (u : AtletaUpdate)
    (hnone : db.atletas.find? (fun r => r.id == i) = none) :
    get db i = .notFound ("Atleta não encontrado no id: " ++ toString i) ∧
    (get db i).status = 404 ∧
    patch db i u = (.notFound ("Atleta não encontrado no id: " ++ toString i), db) ∧
    (patch db i u).1.status = 404 ∧
    delete db i = (.notFound ("Atleta não encontrado no id: " ++ toString i), db) ∧
    (delete db i).1.status = 404 := by
  refine ⟨?_, ?_, ?_, ?_, ?_, ?_⟩
  · simp [get, hnone]
  · simp [get, hnone, GetResult.status]
  · simp [patch, hnone]
  · simp [patch, hnone, PatchResult.status]
  · simp [delete, hnone]
  · simp [delete, hnone, DeleteResult.status]

/-- Witness for C6 at the empty fixture database. -/
theorem not_found_404_witness :
    get exDB0 99 = .notFound "Atleta não encontrado no id: 99" ∧
    patch exDB0 99 { peso := some 80 } =
      (.notFound "Atleta não encontrado no id: 99", exDB0) ∧
    delete exDB0 99 = (.notFound "Atleta não encontrado no id: 99", exDB0) := by
  have h := not_found_404 exDB0 99 { peso := some 80 } rfl
  exact ⟨h.1, h.2.2.1, h.2.2.2.2.1⟩

/-- C7: deleting an existing athlete removes its row (no row with that id
remains), commits, and returns no content (204); a subsequent get by the same
identifier fails with 404. -/
theorem delete_then_get (db : DB) (i : Nat) (a : AtletaRow)
    (hfind : db.atletas.find? (fun r => r.id == i) = some a)
    (huniq : db.atletas.countP (fun r => r.id == i) ≤ 1) :
    (delete db i).1 = .noContent ∧
    (delete db i).1.status = 204 ∧
    (delete db i).2 = { db with atletas := db.atletas.eraseP (fun r => r.id == i) } ∧
    (∀ x ∈ (delete db i).2.atletas, x.id ≠ i) ∧
    get (delete db i).2 i = .notFound ("Atleta não encontrado no id: " ++ toString i) ∧
    (get (delete db i).2 i).status = 404 := by
  have hdel : delete db i =
      (.noContent, { db with atletas := db.atletas.eraseP (fun r => r.id == i) }) := by
    simp [delete, hfind]
  have hnone : ((delete db i).2.atletas).find? (fun r => r.id == i) = none := by
    rw [hdel]
    exact find?_eraseP_eq_none (fun r => r.id == i) db.atletas huniq
  refine ⟨by rw [hdel], by rw [hdel]; rfl, by rw [hdel], ?_, ?_, ?_⟩
  · intro x hx
    have := List.find?_eq_none.mp hnone x hx
    simpa using this
  · simp [get, hnone]
  · simp [get, hnone, GetResult.status]

/-- Witness for C7: deleting the fixture athlete then fetching it. -/
theorem delete_then_get_witness :
    (delete exDB1 10).1 = .noContent ∧
    get (delete exDB1 10).2 10 = .notFound "Atleta não encontrado no id: 10" := by
  have h := delete_then_get exDB1 10 exAtleta rfl (by decide)
  exact ⟨h.1, h.2.2.2.2.1⟩

/-- C5 counterexample: with a CPF filter supplied as the empty string, the
result is not "exactly the rows whose CPF equals it": the fixture athlete,
whose CPF is "123" and not "", is in the result. -/
theorem query_cpf_filter_counterexample :
    exAtleta ∈ filterAtletas exDB1 none (some "") ∧ exAtleta.cpf ≠ "" := by
  constructor
  · simp [filterAtletas, truthy, exDB1]
  · decide

/-- C5 (amended to non-empty filters): a non-empty name filter keeps exactly
the rows whose name contains it case-insensitively; a non-empty CPF filter
keeps exactly the rows whose CPF equals it — at most one row when CPFs are
unique; both filters combine conjunctively; and the list handler maps the
full filtered set to summaries before applying the pagination window. -/
theorem query_filters_amended (db : DB) (n c : String) (p : PageParams)
    (hn : n ≠ "") (hc : c ≠ "")
    (hnodup : (db.atletas.map (fun a => a.cpf)).Nodup) :
    (∀ a, a ∈ filterAtletas db (some n) none ↔
      a ∈ db.atletas ∧ ilikeContains a.nome n = true) ∧
    (∀ a, a ∈ filterAtletas db none (some c) ↔ a ∈ db.atletas ∧ a.cpf = c) ∧
    (∀ a, a ∈ filterAtletas db (some n) (some c) ↔
      a ∈ db.atletas ∧ ilikeContains a.nome n = true ∧ a.cpf = c) ∧
    (filterAtletas db none (some c)).length ≤ 1 ∧
    query db (some n) (some c) p =
      paginate ((filterAtletas db (some n) (some c)).map toResumo) p := by
  have htn : truthy (some n) = true := by simp [truthy, hn]
  have htc : truthy (some c) = true := by simp [truthy, hc]
  refine ⟨?_, ?_, ?_, ?_, rfl⟩
  · intro a
    simp [filterAtletas, truthy, hn, List.mem_filter]
  · intro a
    simp [filterAtletas, truthy, hc, List.mem_filter]
  · intro a
    have hbn : (!(n == "")) = true := by simp [hn]
    have hbc : (!(c == "")) = true := by simp [hc]
    simp [filterAtletas, truthy, hbn, hbc, List.mem_filter, and_assoc]
    tauto
  · have h := length_filter_le_one_of_nodup_map (fun a => a.cpf) c db.atletas hnodup
    simpa [filterAtletas, truthy, hc] using h

/-- Witness for the amended C5 at the fixture database. -/
theorem query_filters_amended_witness :
    ("ana" ≠ "") ∧ ("123" ≠ "") ∧
    (exAtleta ∈ filterAtletas exDB1 (some "ana") none ↔
      exAtleta ∈ exDB1.atletas ∧ ilikeContains exAtleta.nome "ana" = true) ∧
    (filterAtletas exDB1 none (some "123")).length ≤ 1 := by
  have h := query_filters_amended exDB1 "ana" "123" { limit := 5, offset := 0 }
    (by decide) (by decide) (by decide)
  exact ⟨by decide, by decide, h.1 exAtleta, h.2.2.2.1⟩

/-- C9: an empty-string `nome` or `cpf` query parameter fails the handler's
truthiness test, so the corresponding filter is not applied at all: listing
with an empty CPF filter returns every athlete row. -/
theorem empty_filter_not_applied (db : DB) (p : PageParams) :
    filterAtletas db (some "") (some "") = db.atletas ∧
    filterAtletas db none (some "") = db.atletas ∧
    filterAtletas db (some "") none = db.atletas ∧
    query db none (some "") p = paginate (db.atletas.map toResumo) p := by
  refine ⟨?_, ?_, ?_, ?_⟩ <;> simp [filterAtletas, query, truthy]

end WorkoutApi
